import Mathlib

/-!
Shallow embedding of the gaol process-isolation library core:
`src/profile.rs` (the capability model and profile validation) and
`src/platform/unix/process.rs` (spawn / exec / wait / exit status).

Rust `Vec` becomes `List`, `Result<T, E>` becomes `Except E T`, C byte
strings become `List Nat` (one `Nat` per byte), file descriptors and
`pid_t` / `c_int` values become `Int`.  The operating-system primitives
(`pipe`, `fork`, `dup2`, `execve`, `waitpid`) are modelled by an oracle
that supplies each call's outcome, and the process's table of open file
descriptors is threaded explicitly as a list of descriptor numbers.
-/

namespace Gaol

/-! ## Capability model (`src/profile.rs`) -/

/-- Model of filesystem paths (the payload is irrelevant to validation). -/
abbrev Path := String

/-- `PathPattern`: one specific path, or a directory and all of its
contents, recursively. -/
inductive PathPattern
  | Literal (path : Path)
  | Subpath (path : Path)
deriving DecidableEq

/-- `AddressPattern`: all addresses, TCP connections on a given port, or a
local socket at a given path. -/
inductive AddressPattern
  | All
  | Tcp (port : Nat)
  | LocalSocket (path : Path)
deriving DecidableEq

/-- `Operation`: an operation a sandboxed process may be allowed to
perform.  The `PlatformSpecific` payload type `P` is the platform crate's
own operation type, opaque to the core. -/
inductive Operation (P : Type)
  | FileReadAll (pattern : PathPattern)
  | FileReadMetadata (pattern : PathPattern)
  | NetworkOutbound (pattern : AddressPattern)
  | SystemInfoRead
  | PlatformSpecific (op : P)
deriving DecidableEq

/-- `OperationSupportLevel`: how precisely an operation can be allowed on
this platform. -/
inductive OperationSupportLevel
  | NeverAllowed
  | CanBeAllowed
  | CannotBeAllowedPrecisely
  | AlwaysAllowed
deriving DecidableEq

/-- `Profile`: a sandbox profile holding the list of allowed operations. -/
structure Profile (P : Type) where
  allowed_operations : List (Operation P)
deriving DecidableEq

/-- The closure passed to `iter().all(...)` inside `Profile::new`: an
operation passes validation exactly when its support level is
`NeverAllowed` or `CanBeAllowed`.  The trait method
`OperationSupport::support` is platform code outside the core, so it is a
parameter `support`. -/
def operationPasses (support : Operation P → OperationSupportLevel)
    (operation : Operation P) : Bool :=
  match support operation with
  | OperationSupportLevel.NeverAllowed | OperationSupportLevel.CanBeAllowed => true
  | OperationSupportLevel.CannotBeAllowedPrecisely
  | OperationSupportLevel.AlwaysAllowed => false

/-- `Profile::new(allowed_operations) -> Result<Profile, ()>`: succeeds
with a profile storing the operations as given iff every operation passes
validation, and fails with `Err(())` otherwise. -/
def Profile.new (support : Operation P → OperationSupportLevel)
    (allowed_operations : List (Operation P)) : Except Unit (Profile P) :=
  if allowed_operations.all (fun operation => operationPasses support operation) then
    Except.ok { allowed_operations := allowed_operations }
  else
    Except.error ()

/-! ## Process lifecycle (`src/platform/unix/process.rs`) -/

/-- A command description: program path, arguments and environment, all as
NUL-free C byte strings (`CString` contents). -/
structure Command where
  module_path : List Nat
  args : List (List Nat)
  env : List (List Nat × List Nat)
deriving DecidableEq

/-- A continuation byte `10xxxxxx` of a multi-byte UTF-8 sequence. -/
def isUtf8Cont (b : Nat) : Bool := 128 ≤ b && b < 192

/-- Whether a byte sequence is valid UTF-8 (the check performed by Rust's
`str::from_utf8`): ASCII bytes stand alone; two- to four-byte sequences
have a lead byte in `C2..F4` with the ranges of the first continuation
byte restricted to exclude overlong forms, surrogates and values above
`U+10FFFF`. -/
def isValidUtf8 : List Nat → Bool
  | [] => true
  | b :: rest =>
    if b < 128 then isValidUtf8 rest
    else if b < 194 then false
    else if b < 224 then
      match rest with
      | b1 :: rest1 => isUtf8Cont b1 && isValidUtf8 rest1
      | [] => false
    else if b = 224 then
      match rest with
      | b1 :: b2 :: rest1 => (160 ≤ b1 && b1 < 192) && isUtf8Cont b2 && isValidUtf8 rest1
      | _ => false
    else if b < 237 then
      match rest with
      | b1 :: b2 :: rest1 => isUtf8Cont b1 && isUtf8Cont b2 && isValidUtf8 rest1
      | _ => false
    else if b = 237 then
      match rest with
      | b1 :: b2 :: rest1 => (128 ≤ b1 && b1 < 160) && isUtf8Cont b2 && isValidUtf8 rest1
      | _ => false
    else if b < 240 then
      match rest with
      | b1 :: b2 :: rest1 => isUtf8Cont b1 && isUtf8Cont b2 && isValidUtf8 rest1
      | _ => false
    else if b = 240 then
      match rest with
      | b1 :: b2 :: b3 :: rest1 =>
          (144 ≤ b1 && b1 < 192) && isUtf8Cont b2 && isUtf8Cont b3 && isValidUtf8 rest1
      | _ => false
    else if b < 244 then
      match rest with
      | b1 :: b2 :: b3 :: rest1 =>
          isUtf8Cont b1 && isUtf8Cont b2 && isUtf8Cont b3 && isValidUtf8 rest1
      | _ => false
    else if b = 244 then
      match rest with
      | b1 :: b2 :: b3 :: rest1 =>
          (128 ≤ b1 && b1 < 144) && isUtf8Cont b2 && isUtf8Cont b3 && isValidUtf8 rest1
      | _ => false
    else false

/-- Building one `KEY=VALUE` environment entry inside `exec`:
`str::from_utf8(key).unwrap()` and `str::from_utf8(value).unwrap()` abort
the process (the model returns `none`) when the bytes are not valid UTF-8,
and `CString::new(entry).unwrap()` aborts on an interior NUL byte.
Byte 61 is the ASCII equals sign. -/
def buildEnvEntry (key value : List Nat) : Option (List Nat) :=
  if isValidUtf8 key && isValidUtf8 value then
    let entry := key ++ 61 :: value
    if entry.contains 0 then none else some entry
  else none

/-- The `env` vector built by `exec` before calling `execve`: `none` when
building any entry aborts. -/
def buildEnv : List (List Nat × List Nat) → Option (List (List Nat))
  | [] => some []
  | (key, value) :: rest =>
    match buildEnvEntry key value, buildEnv rest with
    | some entry, some entries => some (entry :: entries)
    | _, _ => none

/-- Outcome of the child-side `exec` helper. -/
inductive ExecOutcome
  | panicked
  | execed
  | failed (errno : Int)
deriving DecidableEq

/-- `exec(command)`: build the argument and environment vectors, then call
`execve`.  Building an environment entry from non-UTF-8 bytes aborts the
process (`panicked`).  If `execve` succeeds the program image is replaced
and `exec` never returns (`execed`); if `execve` returns, `exec` returns
the OS error (`failed errno`).  `execveResult` is the oracle for the
`execve` call: `none` means it succeeded. -/
def exec (command : Command) (execveResult : Option Int) : ExecOutcome :=
  match buildEnv command.env with
  | none => ExecOutcome.panicked
  | some _ =>
    match execveResult with
    | none => ExecOutcome.execed
    | some errno => ExecOutcome.failed errno

/-- The well-known standard stream descriptor numbers. -/
def STDIN_FILENO : Int := 0

def STDOUT_FILENO : Int := 1

def STDERR_FILENO : Int := 2

/-- Outcome of one `pipe()` call: an OS error, or a (read, write)
descriptor pair. -/
inductive PipeResult
  | err (errno : Int)
  | ok (readFd writeFd : Int)
deriving DecidableEq

/-- Oracle fixing the outcome of every OS primitive one `spawn` call
performs, in order: the three `pipe()` calls, the value `fork()` returns
on this side (0 selects the child continuation), the values the three
`dup2` calls return in the child, and the `execve` outcome (`none`:
program image replaced; `some errno`: the call returned). -/
structure SpawnOracle where
  pipe1 : PipeResult
  pipe2 : PipeResult
  pipe3 : PipeResult
  forkResult : Int
  dup2Stdin : Int
  dup2Stdout : Int
  dup2Stderr : Int
  execveResult : Option Int
deriving DecidableEq

/-- `Process`: the child's pid and the parent-side stream descriptors
(stdin write end, stdout read end, stderr read end). -/
structure Process where
  pid : Int
  stdin : Int
  stdout : Int
  stderr : Int
deriving DecidableEq

/-- How a reason the child branch of `spawn` aborted. -/
inductive ChildAbort
  | dup2Mismatch
  | envPanicked
  | postExec
deriving DecidableEq

/-- What the control flow invoking `spawn` observes: an `Ok(Process)` in
the parent, an early `Err` in the parent, the child's program image
replaced, or the child aborting. -/
inductive SpawnResult
  | ok (process : Process)
  | err (errno : Int)
  | execed
  | childAbort (reason : ChildAbort)
deriving DecidableEq

/-- `close(fd)`: remove a descriptor from the table of open
descriptors. -/
def closeFd (fds : List Int) (fd : Int) : List Int :=
  fds.filter (fun x => x ≠ fd)

/-- A successful `dup2(old, new)` makes `new` an open descriptor. -/
def insertFd (fds : List Int) (fd : Int) : List Int :=
  if fd ∈ fds then fds else fd :: fds

/-- `spawn(command)`: create three pipes (returning the OS error if any
`pipe()` call fails), `fork()`, and then follow the branch the oracle's
fork value selects.  The child closes the parent-side ends, `dup2`s each
pipe onto the standard descriptors (an `assert_eq!` aborts on mismatch),
calls `exec`, and aborts unconditionally if `exec` returns.  The parent
closes the child-side ends and returns `Ok(Process)` with the fork value
as the pid.  Returns the result together with the final open-descriptor
table. -/
def spawn (command : Command) (o : SpawnOracle) (fds : List Int) :
    SpawnResult × List Int :=
  match o.pipe1 with
  | PipeResult.err errno => (SpawnResult.err errno, fds)
  | PipeResult.ok r1 w1 =>
    let fds := w1 :: r1 :: fds
    match o.pipe2 with
    | PipeResult.err errno => (SpawnResult.err errno, fds)
    | PipeResult.ok r2 w2 =>
      let fds := w2 :: r2 :: fds
      match o.pipe3 with
      | PipeResult.err errno => (SpawnResult.err errno, fds)
      | PipeResult.ok r3 w3 =>
        let fds := w3 :: r3 :: fds
        if o.forkResult = 0 then
          let fds := closeFd fds w1
          let fds := closeFd fds r2
          let fds := closeFd fds r3
          if o.dup2Stdin = STDIN_FILENO then
            let fds := closeFd (insertFd fds STDIN_FILENO) r1
            if o.dup2Stdout = STDOUT_FILENO then
              let fds := closeFd (insertFd fds STDOUT_FILENO) r2
              if o.dup2Stderr = STDERR_FILENO then
                let fds := closeFd (insertFd fds STDERR_FILENO) w3
                match exec command o.execveResult with
                | ExecOutcome.panicked => (SpawnResult.childAbort ChildAbort.envPanicked, fds)
                | ExecOutcome.execed => (SpawnResult.execed, fds)
                | ExecOutcome.failed _ => (SpawnResult.childAbort ChildAbort.postExec, fds)
              else (SpawnResult.childAbort ChildAbort.dup2Mismatch, fds)
            else (SpawnResult.childAbort ChildAbort.dup2Mismatch, fds)
          else (SpawnResult.childAbort ChildAbort.dup2Mismatch, fds)
        else
          let fds := closeFd fds r1
          let fds := closeFd fds w2
          let fds := closeFd fds w3
          (SpawnResult.ok
            { pid := o.forkResult, stdin := w1, stdout := r2, stderr := r3 }, fds)

/-- `ExitStatus`: normal termination with an exit code, or termination by
a signal. -/
inductive ExitStatus
  | Code (code : Int)
  | Signal (signal : Int)
deriving DecidableEq

/-- `ExitStatus::success()`: true exactly on `Code(0)`. -/
def ExitStatus.success : ExitStatus → Bool
  | ExitStatus.Code 0 => true
  | _ => false

/-- `WIFEXITED(stat)`: the glibc macro `(stat & 0x7f) == 0` on the
(nonnegative) raw status word. -/
def WIFEXITED (stat : Nat) : Bool := stat % 128 = 0

/-- `WEXITSTATUS(stat)`: the glibc macro `(stat >> 8) & 0xff`. -/
def WEXITSTATUS (stat : Nat) : Nat := stat / 256 % 256

/-- `WTERMSIG(stat)`: the glibc macro `stat & 0x7f`. -/
def WTERMSIG (stat : Nat) : Nat := stat % 128

/-- One `waitpid(-1, &mut stat, 0)` outcome: the pid the call returned
(negative on failure), the raw status word it stored, and the errno
`last_os_error` would report if the call failed. -/
structure WaitEvent where
  pid : Int
  stat : Nat
  errno : Int
deriving DecidableEq

/-- Result of `Process::wait`: the OS error when a `waitpid` call fails,
the decoded exit status when the tracked pid is reaped, or still blocked
when the oracle's event list runs out. -/
inductive WaitOutcome
  | err (errno : Int)
  | done (status : ExitStatus)
  | pending
deriving DecidableEq

/-- `Process::wait()`: loop on `waitpid(-1, ..)`, returning the OS error
if a call fails, skipping reaped children whose pid is not the tracked
one, and decoding the raw status of the tracked pid: `WIFEXITED` yields
`Code(WEXITSTATUS)`, anything else yields `Signal(WTERMSIG)`. -/
def Process.wait (self : Process) : List WaitEvent → WaitOutcome
  | [] => WaitOutcome.pending
  | e :: rest =>
    if e.pid < 0 then WaitOutcome.err e.errno
    else if e.pid = self.pid then
      if WIFEXITED e.stat then WaitOutcome.done (ExitStatus.Code (WEXITSTATUS e.stat))
      else WaitOutcome.done (ExitStatus.Signal (WTERMSIG e.stat))
    else Process.wait self rest

/-! ## Helper lemmas -/

/-- An operation passes `Profile::new` validation iff its support level is
`NeverAllowed` or `CanBeAllowed`. -/
theorem operationPasses_iff (support : Operation P → OperationSupportLevel)
    (op : Operation P) :
    operationPasses support op = true ↔
      support op = OperationSupportLevel.NeverAllowed ∨
        support op = OperationSupportLevel.CanBeAllowed := by
  cases h : support op <;> simp [operationPasses, h]

/-- The `iter().all(...)` condition of `Profile::new`, as a statement
about every element of the list. -/
theorem profile_new_cond (support : Operation P → OperationSupportLevel)
    (operations : List (Operation P)) :
    (operations.all (fun operation => operationPasses support operation) = true) ↔
      ∀ op ∈ operations, support op = OperationSupportLevel.NeverAllowed ∨
        support op = OperationSupportLevel.CanBeAllowed := by
  rw [List.all_eq_true]
  exact forall₂_congr (fun op _ => operationPasses_iff support op)

/-- An environment containing a key or value that is not valid UTF-8 makes
the environment construction in `exec` abort. -/
theorem buildEnv_eq_none_of_bad (env : List (List Nat × List Nat))
    (h : ∃ kv ∈ env, ¬(isValidUtf8 kv.1 && isValidUtf8 kv.2) = true) :
    buildEnv env = none := by
  induction env with
  | nil => simp at h
  | cons kv rest ih =>
    obtain ⟨x, hx, hbad⟩ := h
    rcases List.mem_cons.mp hx with hx | hx
    · subst hx
      have hentry : buildEnvEntry x.1 x.2 = none := by
        simp [buildEnvEntry, hbad]
      obtain ⟨k, v⟩ := x
      simp only [buildEnv, hentry]
    · have hrest : buildEnv rest = none := ih ⟨x, hx, hbad⟩
      obtain ⟨k, v⟩ := kv
      simp only [buildEnv, hrest]
      cases buildEnvEntry k v <;> rfl

/-! ## Profile validation claims -/

/-- Claim C1: for every support function and every list of operations,
`Profile::new(operations)` returns `Ok` iff every operation's support
level is `NeverAllowed` or `CanBeAllowed`, and returns `Err` iff some
operation's level is `CannotBeAllowedPrecisely` or `AlwaysAllowed`; a
list mixing one acceptable and one unacceptable operation therefore fails
construction entirely, with no partial profile produced. -/
theorem profile_new_ok_iff (support : Operation P → OperationSupportLevel)
    (operations : List (Operation P)) :
    ((∃ p, Profile.new support operations = Except.ok p) ↔
      ∀ op ∈ operations, support op = OperationSupportLevel.NeverAllowed ∨
        support op = OperationSupportLevel.CanBeAllowed) ∧
    ((Profile.new support operations = Except.error ()) ↔
      ¬ ∀ op ∈ operations, support op = OperationSupportLevel.NeverAllowed ∨
        support op = OperationSupportLevel.CanBeAllowed) := by
  by_cases h : ∀ op ∈ operations, support op = OperationSupportLevel.NeverAllowed ∨
      support op = OperationSupportLevel.CanBeAllowed
  · have hc : operations.all (fun operation => operationPasses support operation) = true :=
      (profile_new_cond support operations).mpr h
    simp [Profile.new, hc, h]
    exact ⟨h, fun x hx h1 => (h x hx).resolve_left h1⟩
  · have hc : ¬ operations.all (fun operation => operationPasses support operation) = true :=
      fun hall => h ((profile_new_cond support operations).mp hall)
    simp [Profile.new, hc, h]

/-- Claim C7: for every list of operations accepted by `Profile::new`, the
resulting profile stores the operations exactly as given and in the
caller's order, and `allowed_operations()` returns exactly that list. -/
theorem profile_new_stores_operations (support : Operation P → OperationSupportLevel)
    (operations : List (Operation P))
    (h : ∀ op ∈ operations, support op = OperationSupportLevel.NeverAllowed ∨
      support op = OperationSupportLevel.CanBeAllowed) :
    ∃ p, Profile.new support operations = Except.ok p ∧
      p.allowed_operations = operations := by
  have hc : operations.all (fun operation => operationPasses support operation) = true :=
    (profile_new_cond support operations).mpr h
  exact ⟨{ allowed_operations := operations }, by simp [Profile.new, hc], rfl⟩

/-- Claim C7 witness: a singleton list whose operation's level is
`CanBeAllowed` is stored and returned exactly. -/
theorem profile_new_stores_operations_witness :
    ∃ p, Profile.new (fun _ : Operation Unit => OperationSupportLevel.CanBeAllowed)
        [Operation.SystemInfoRead] = Except.ok p ∧
      p.allowed_operations = [Operation.SystemInfoRead] :=
  profile_new_stores_operations
    (fun _ : Operation Unit => OperationSupportLevel.CanBeAllowed)
    [Operation.SystemInfoRead] (by decide)

/-- Claim C10: `Profile::new` applied to the empty operations list always
succeeds, and the resulting profile's `allowed_operations()` is empty. -/
theorem profile_new_empty (support : Operation P → OperationSupportLevel) :
    Profile.new support ([] : List (Operation P)) =
      Except.ok { allowed_operations := [] } ∧
    (Profile.mk ([] : List (Operation P))).allowed_operations = [] :=
  ⟨rfl, rfl⟩

/-! ## Exit status claims -/

/-- Claim C8: `ExitStatus::success()` returns true iff the value is
`Code(0)`; it returns false for every other `Code(n)` and for every
`Signal(s)`, including `Signal(0)`. -/
theorem exit_status_success_iff (s : ExitStatus) :
    s.success = true ↔ s = ExitStatus.Code 0 := by
  cases s with
  | Code code =>
    rcases eq_or_ne code 0 with h | h
    · subst h; simp [ExitStatus.success]
    · simp [ExitStatus.success, h]
  | Signal signal => simp [ExitStatus.success]

/-! ## Wait claims -/

/-- Claim C6: `Process::wait` repeatedly waits for any child, discards
termination notifications whose pid differs from the tracked pid, and
stops at the first notification for the tracked pid; on success it
returns `Code(exit_code)` when the raw status indicates normal exit and
`Signal(signal_number)` for any other termination. -/
theorem wait_filters_and_decodes (self : Process) (pre post : List WaitEvent)
    (e : WaitEvent)
    (hpre : ∀ x ∈ pre, 0 ≤ x.pid ∧ x.pid ≠ self.pid)
    (hself : 0 ≤ self.pid) (he : e.pid = self.pid) :
    Process.wait self (pre ++ e :: post) =
      (if WIFEXITED e.stat then
        WaitOutcome.done (ExitStatus.Code (WEXITSTATUS e.stat))
      else
        WaitOutcome.done (ExitStatus.Signal (WTERMSIG e.stat))) := by
  induction pre with
  | nil =>
    have hnonneg : ¬ e.pid < 0 := not_lt.mpr (he ▸ hself)
    simp only [List.nil_append, Process.wait, if_neg hnonneg, if_pos he]
  | cons x xs ih =>
    have hx := hpre x (List.mem_cons_self x xs)
    have hxnonneg : ¬ x.pid < 0 := not_lt.mpr hx.1
    simp only [List.cons_append, Process.wait, if_neg hxnonneg, if_neg hx.2]
    exact ih (fun y hy => hpre y (List.mem_cons_of_mem x hy))

/-- Claim C6 witness: a notification for pid 7 is discarded, the
notification for the tracked pid 5 with raw status 9 (not a normal exit)
is decoded as `Signal(9)`. -/
theorem wait_filters_and_decodes_witness :
    Process.wait ⟨5, 10, 11, 12⟩ ([⟨7, 0, 0⟩] ++ ⟨5, 9, 0⟩ :: []) =
      (if WIFEXITED 9 then
        WaitOutcome.done (ExitStatus.Code (WEXITSTATUS 9))
      else
        WaitOutcome.done (ExitStatus.Signal (WTERMSIG 9))) :=
  wait_filters_and_decodes ⟨5, 10, 11, 12⟩ [⟨7, 0, 0⟩] [] ⟨5, 9, 0⟩
    (by decide) (by decide) (by decide)

/-! ## Spawn evaluation helpers -/

/-- Evaluating `spawn` on the parent branch: all pipes succeed and the
fork value is nonzero, so the child-side ends are closed and
`Ok(Process)` is returned with the fork value as pid. -/
theorem spawn_parent_eval (command : Command) (o : SpawnOracle) (fds : List Int)
    (r1 w1 r2 w2 r3 w3 : Int)
    (h1 : o.pipe1 = PipeResult.ok r1 w1) (h2 : o.pipe2 = PipeResult.ok r2 w2)
    (h3 : o.pipe3 = PipeResult.ok r3 w3) (hf : o.forkResult ≠ 0) :
    spawn command o fds =
      (SpawnResult.ok ⟨o.forkResult, w1, r2, r3⟩,
       closeFd (closeFd (closeFd (w3 :: r3 :: w2 :: r2 :: w1 :: r1 :: fds) r1) w2) w3) := by
  simp [spawn, h1, h2, h3, hf]

/-- Evaluating `spawn` on the child branch up to the `exec` call: all
pipes succeed, the fork value is zero and the three `dup2` calls return
the expected descriptors, so the result is determined by the `exec`
outcome. -/
theorem spawn_child_exec_eq (command : Command) (o : SpawnOracle) (fds : List Int)
    (r1 w1 r2 w2 r3 w3 : Int)
    (h1 : o.pipe1 = PipeResult.ok r1 w1) (h2 : o.pipe2 = PipeResult.ok r2 w2)
    (h3 : o.pipe3 = PipeResult.ok r3 w3) (hf : o.forkResult = 0)
    (d1 : o.dup2Stdin = STDIN_FILENO) (d2 : o.dup2Stdout = STDOUT_FILENO)
    (d3 : o.dup2Stderr = STDERR_FILENO) :
    (spawn command o fds).fst =
      (match exec command o.execveResult with
       | ExecOutcome.panicked => SpawnResult.childAbort ChildAbort.envPanicked
       | ExecOutcome.execed => SpawnResult.execed
       | ExecOutcome.failed _ => SpawnResult.childAbort ChildAbort.postExec) := by
  cases hE : exec command o.execveResult <;>
    simp [spawn, h1, h2, h3, hf, d1, d2, d3, hE]

/-- A shared sample command: program `/bin` with one argument and one
valid-UTF-8 environment entry. -/
def sampleCommand : Command :=
  ⟨[47, 98, 105, 110], [[45, 99]], [([70], [98])]⟩

/-! ## Spawn claims -/

/-- Claim C3: in the child branch of `spawn` (fork returned 0), the
result is never `Ok(Process)`, and on the path where `execve` returned
control (with the stream rewiring having succeeded and the environment
built), the child aborts unconditionally. -/
theorem child_branch_never_returns_process (command : Command) (o : SpawnOracle)
    (fds : List Int) (hf : o.forkResult = 0) :
    (∀ p s, spawn command o fds ≠ (SpawnResult.ok p, s)) ∧
    (∀ r1 w1 r2 w2 r3 w3 errno, o.pipe1 = PipeResult.ok r1 w1 →
      o.pipe2 = PipeResult.ok r2 w2 → o.pipe3 = PipeResult.ok r3 w3 →
      o.dup2Stdin = STDIN_FILENO → o.dup2Stdout = STDOUT_FILENO →
      o.dup2Stderr = STDERR_FILENO → o.execveResult = some errno →
      buildEnv command.env ≠ none →
      (spawn command o fds).fst = SpawnResult.childAbort ChildAbort.postExec) := by
  constructor
  · intro p s h
    unfold spawn at h
    repeat' split at h
    all_goals simp_all
  · intro r1 w1 r2 w2 r3 w3 errno h1 h2 h3 d1 d2 d3 hex henv
    rw [spawn_child_exec_eq command o fds r1 w1 r2 w2 r3 w3 h1 h2 h3 hf d1 d2 d3]
    cases hE : buildEnv command.env with
    | none => exact absurd hE henv
    | some entries => simp [exec, hE, hex]

/-- Claim C3 witness: with `execve` failing (errno 2) in the child, spawn
does not produce a `Process` and the child aborts after `exec` returns. -/
theorem child_branch_never_returns_process_witness :
    spawn sampleCommand ⟨PipeResult.ok 3 4, PipeResult.ok 5 6, PipeResult.ok 7 8,
        0, 0, 1, 2, some 2⟩ [] ≠ (SpawnResult.ok ⟨0, 4, 5, 7⟩, [1, 0, 2]) ∧
    (spawn sampleCommand ⟨PipeResult.ok 3 4, PipeResult.ok 5 6, PipeResult.ok 7 8,
        0, 0, 1, 2, some 2⟩ []).fst = SpawnResult.childAbort ChildAbort.postExec :=
  ⟨(child_branch_never_returns_process sampleCommand
      ⟨PipeResult.ok 3 4, PipeResult.ok 5 6, PipeResult.ok 7 8, 0, 0, 1, 2, some 2⟩
      [] rfl).1 ⟨0, 4, 5, 7⟩ [1, 0, 2],
   (child_branch_never_returns_process sampleCommand
      ⟨PipeResult.ok 3 4, PipeResult.ok 5 6, PipeResult.ok 7 8, 0, 0, 1, 2, some 2⟩
      [] rfl).2 3 4 5 6 7 8 2 rfl rfl rfl rfl rfl rfl rfl (by decide)⟩

/-- Claim C9: for every nonzero fork return value, including the negative
values the OS uses to signal duplication failure, `spawn` takes the
parent branch, closes the child-side pipe ends (`fd1[0]`, `fd2[1]`,
`fd3[1]`), and returns `Ok` with a `Process` whose pid is exactly that
value. -/
theorem spawn_parent_branch (command : Command) (o : SpawnOracle) (fds : List Int)
    (r1 w1 r2 w2 r3 w3 : Int)
    (h1 : o.pipe1 = PipeResult.ok r1 w1) (h2 : o.pipe2 = PipeResult.ok r2 w2)
    (h3 : o.pipe3 = PipeResult.ok r3 w3) (hf : o.forkResult ≠ 0) :
    (spawn command o fds).fst = SpawnResult.ok ⟨o.forkResult, w1, r2, r3⟩ ∧
    r1 ∉ (spawn command o fds).snd ∧ w2 ∉ (spawn command o fds).snd ∧
    w3 ∉ (spawn command o fds).snd := by
  rw [spawn_parent_eval command o fds r1 w1 r2 w2 r3 w3 h1 h2 h3 hf]
  simp [closeFd, List.mem_filter]

/-- Claim C9 witness: a fork return value of -1 (the failure value) still
takes the parent branch, yields pid -1, and the child-side descriptors
3, 6, 8 are closed. -/
theorem spawn_parent_branch_witness :
    (spawn sampleCommand ⟨PipeResult.ok 3 4, PipeResult.ok 5 6, PipeResult.ok 7 8,
        -1, 0, 1, 2, none⟩ []).fst = SpawnResult.ok ⟨-1, 4, 5, 7⟩ ∧
    3 ∉ (spawn sampleCommand ⟨PipeResult.ok 3 4, PipeResult.ok 5 6, PipeResult.ok 7 8,
        -1, 0, 1, 2, none⟩ []).snd ∧
    6 ∉ (spawn sampleCommand ⟨PipeResult.ok 3 4, PipeResult.ok 5 6, PipeResult.ok 7 8,
        -1, 0, 1, 2, none⟩ []).snd ∧
    8 ∉ (spawn sampleCommand ⟨PipeResult.ok 3 4, PipeResult.ok 5 6, PipeResult.ok 7 8,
        -1, 0, 1, 2, none⟩ []).snd :=
  spawn_parent_branch sampleCommand
    ⟨PipeResult.ok 3 4, PipeResult.ok 5 6, PipeResult.ok 7 8, -1, 0, 1, 2, none⟩
    [] 3 4 5 6 7 8 rfl rfl rfl (by decide)

/-- Claim C2: pipe-creation failure and wait failure do surface the
underlying OS error, but fork failure does not: `fork()` returning -1 is
matched by the catch-all `pid` arm of the `match`, so `spawn` returns
`Ok` with a `Process` whose pid is -1 instead of returning the OS
error. -/
theorem spawn_fork_failure_not_surfaced :
    (spawn sampleCommand ⟨PipeResult.err 13, PipeResult.err 13, PipeResult.err 13,
        0, 0, 1, 2, none⟩ []).fst = SpawnResult.err 13 ∧
    Process.wait ⟨9, 4, 5, 7⟩ [⟨-1, 0, 10⟩] = WaitOutcome.err 10 ∧
    (spawn sampleCommand ⟨PipeResult.ok 3 4, PipeResult.ok 5 6, PipeResult.ok 7 8,
        -1, 0, 1, 2, none⟩ []).fst = SpawnResult.ok ⟨-1, 4, 5, 7⟩ := by
  decide

/-- A command whose single environment entry has the non-UTF-8 key
`[255]`. -/
def nonUtf8EnvCommand : Command := ⟨[47, 98], [], [([255], [98])]⟩

/-- Claim C4 counterexample: the environment key `[255]` is not decodable
as UTF-8, yet `spawn` does not fail before a child process is created: on
the parent side (fork returned 9) it returns `Ok(Process)`.  The failure
happens inside the already-created child, not at construction time. -/
theorem spawn_nonutf8_env_not_construction_error :
    isValidUtf8 [255] = false ∧
    (spawn nonUtf8EnvCommand ⟨PipeResult.ok 3 4, PipeResult.ok 5 6, PipeResult.ok 7 8,
        9, 0, 1, 2, none⟩ []).fst = SpawnResult.ok ⟨9, 4, 5, 7⟩ := by
  decide

/-- Claim C4 (amended): a non-UTF-8-decodable environment key or value
does not make `spawn` fail before the fork: the parent branch still
returns `Ok(Process)`, and the child branch aborts inside `exec` while
building the environment, after the child process was created. -/
theorem spawn_nonutf8_env_child_aborts (command : Command) (o : SpawnOracle)
    (fds : List Int) (r1 w1 r2 w2 r3 w3 : Int)
    (h1 : o.pipe1 = PipeResult.ok r1 w1) (h2 : o.pipe2 = PipeResult.ok r2 w2)
    (h3 : o.pipe3 = PipeResult.ok r3 w3)
    (hbad : ∃ kv ∈ command.env, ¬(isValidUtf8 kv.1 && isValidUtf8 kv.2) = true) :
    (o.forkResult ≠ 0 →
      (spawn command o fds).fst = SpawnResult.ok ⟨o.forkResult, w1, r2, r3⟩) ∧
    (o.forkResult = 0 → o.dup2Stdin = STDIN_FILENO → o.dup2Stdout = STDOUT_FILENO →
      o.dup2Stderr = STDERR_FILENO →
      (spawn command o fds).fst = SpawnResult.childAbort ChildAbort.envPanicked) := by
  constructor
  · intro hf
    rw [spawn_parent_eval command o fds r1 w1 r2 w2 r3 w3 h1 h2 h3 hf]
  · intro hf d1 d2 d3
    rw [spawn_child_exec_eq command o fds r1 w1 r2 w2 r3 w3 h1 h2 h3 hf d1 d2 d3]
    have henv := buildEnv_eq_none_of_bad command.env hbad
    simp [exec, henv]

/-- Claim C4 (amended) witness: with the non-UTF-8 key `[255]` and fork
returning 0, the child aborts while building the environment. -/
theorem spawn_nonutf8_env_child_aborts_witness :
    (spawn nonUtf8EnvCommand ⟨PipeResult.ok 3 4, PipeResult.ok 5 6, PipeResult.ok 7 8,
        0, 0, 1, 2, none⟩ []).fst = SpawnResult.childAbort ChildAbort.envPanicked :=
  (spawn_nonutf8_env_child_aborts nonUtf8EnvCommand
    ⟨PipeResult.ok 3 4, PipeResult.ok 5 6, PipeResult.ok 7 8, 0, 0, 1, 2, none⟩
    [] 3 4 5 6 7 8 rfl rfl rfl
    ⟨([255], [98]), by decide, by decide⟩).2 rfl rfl rfl rfl

/-- Claim C5 counterexample: when the second pipe creation fails, `spawn`
returns the OS error but descriptors 3 and 4 created by the first,
successful pipe call are still open: the already-created resources were
not unwound. -/
theorem spawn_pipe_fail_leaks_counterexample :
    (spawn sampleCommand ⟨PipeResult.ok 3 4, PipeResult.err 24, PipeResult.err 24,
        0, 0, 1, 2, none⟩ []).fst = SpawnResult.err 24 ∧
    3 ∈ (spawn sampleCommand ⟨PipeResult.ok 3 4, PipeResult.err 24, PipeResult.err 24,
        0, 0, 1, 2, none⟩ []).snd ∧
    4 ∈ (spawn sampleCommand ⟨PipeResult.ok 3 4, PipeResult.err 24, PipeResult.err 24,
        0, 0, 1, 2, none⟩ []).snd := by
  decide

/-- Claim C5 (amended): when a pipe-creation step of `spawn` fails, the
error is returned immediately and no partially-constructed `Process` is
produced, but the descriptors created by earlier successful pipe calls
are not closed: the final open-descriptor table still contains them. -/
theorem spawn_pipe_fail_no_unwind (command : Command) (o : SpawnOracle)
    (fds : List Int) :
    (∀ errno, o.pipe1 = PipeResult.err errno →
      spawn command o fds = (SpawnResult.err errno, fds)) ∧
    (∀ r1 w1 errno, o.pipe1 = PipeResult.ok r1 w1 → o.pipe2 = PipeResult.err errno →
      spawn command o fds = (SpawnResult.err errno, w1 :: r1 :: fds)) ∧
    (∀ r1 w1 r2 w2 errno, o.pipe1 = PipeResult.ok r1 w1 →
      o.pipe2 = PipeResult.ok r2 w2 → o.pipe3 = PipeResult.err errno →
      spawn command o fds = (SpawnResult.err errno, w2 :: r2 :: w1 :: r1 :: fds)) := by
  refine ⟨fun errno h1 => ?_, fun r1 w1 errno h1 h2 => ?_,
    fun r1 w1 r2 w2 errno h1 h2 h3 => ?_⟩
  · simp [spawn, h1]
  · simp [spawn, h1, h2]
  · simp [spawn, h1, h2, h3]

/-- Claim C5 (amended) witness: the second pipe failing with errno 24
returns the error with descriptors 4 and 3 from the first pipe still
open. -/
theorem spawn_pipe_fail_no_unwind_witness :
    spawn sampleCommand ⟨PipeResult.ok 3 4, PipeResult.err 24, PipeResult.err 24,
        0, 0, 1, 2, none⟩ [] = (SpawnResult.err 24, [4, 3]) :=
  (spawn_pipe_fail_no_unwind sampleCommand
    ⟨PipeResult.ok 3 4, PipeResult.err 24, PipeResult.err 24, 0, 0, 1, 2, none⟩
    []).2.1 3 4 24 rfl rfl

end Gaol
